import Mathlib

/-!
Verification of the PyShop product-catalog application.

The development shallowly embeds the four source files of the repository:
src/products/models.py (the Product and Offer schemas), src/products/admin.py
(the admin list-display configuration), src/products/urls.py (the URL
dispatch table) and src/products/views.py (the index and new handlers).
Stored floating-point values are carried as opaque 64-bit patterns because
the application never computes with them.
-/

namespace PyShop

/-- Field declarations available to the two models in
src/products/models.py: CharField carries its declared max_length,
FloatField and IntegerField carry nothing, and ForeignKey (unused by this
repository, present so that its absence can be stated) carries the name of
the model it points to. -/
inductive FieldType
  | CharField (max_length : Nat)
  | FloatField
  | IntegerField
  | ForeignKey (target : String)
deriving DecidableEq, Repr

/-- Whether a field declaration is a reference to another model. -/
def FieldType.isForeignKey : FieldType → Bool
  | .ForeignKey _ => true
  | _ => false

/-- One declared field of a model: its name, its type, and its unique
option. Django fields default to unique=False and neither model in
src/products/models.py sets the option. -/
structure FieldSpec where
  name : String
  ftype : FieldType
  unique : Bool
deriving DecidableEq, Repr

/-- Schema of the Product model, src/products/models.py lines 4-8. -/
def Product.schema : List FieldSpec :=
  [ ⟨"name", .CharField 255, false⟩,
    ⟨"price", .FloatField, false⟩,
    ⟨"stock", .IntegerField, false⟩,
    ⟨"image_url", .CharField 2083, false⟩ ]

/-- Schema of the Offer model, src/products/models.py lines 11-14. -/
def Offer.schema : List FieldSpec :=
  [ ⟨"code", .CharField 10, false⟩,
    ⟨"description", .CharField 255, false⟩,
    ⟨"discount", .FloatField, false⟩ ]

/-- A stored FloatField value: an IEEE-754 double carried as its 64-bit
pattern. The application only stores and displays these values and never
computes with them, so the pattern is all the embedding needs. -/
abbrev DoubleBits := Nat

/-- A row of the Product table: one value per declared field. -/
structure ProductRow where
  name : String
  price : DoubleBits
  stock : Int
  image_url : String
deriving DecidableEq, Repr

/-- A row of the Offer table: one value per declared field. -/
structure OfferRow where
  code : String
  description : String
  discount : DoubleBits
deriving DecidableEq, Repr

/-- The persisted state: the two database tables. -/
structure Store where
  products : List ProductRow
  offers : List OfferRow
deriving DecidableEq, Repr

/-- An incoming HTTP request: its method and its path (already stripped of
the leading slash, as Django's URL resolver sees it). The handlers in
src/products/views.py read nothing from the request object. -/
structure HttpRequest where
  method : String
  path : String
deriving DecidableEq, Repr

/-- The observable content of a response as this application builds one:
the status code, the template name and context when the response renders a
template, and the literal body when the response carries one. The only
context values this application ever passes are lists of product rows. -/
structure HttpResponse where
  status : Nat
  template : Option String
  context : List (String × List ProductRow)
  body : Option String
deriving DecidableEq, Repr

/-- Embedding of django.shortcuts.render: a template response with the
default status 200. -/
def render (request : HttpRequest) (template : String)
    (context : List (String × List ProductRow)) : HttpResponse :=
  { status := 200, template := some template, context := context,
    body := none }

/-- Embedding of django.http.HttpResponse applied to a literal body, with
the default status 200. -/
def httpResponse (body : String) : HttpResponse :=
  { status := 200, template := none, context := [], body := some body }

/-- Lookup of a key in a template context. -/
def contextLookup (ctx : List (String × List ProductRow)) (k : String) :
    Option (List ProductRow) :=
  (ctx.find? (fun e => e.1 == k)).map (fun e => e.2)

/-- The index view, src/products/views.py lines 13-17: fetch all products
(Product.objects.all) and render index.html with them under the context key
"products". The pair returns the response together with the store as the
handler leaves it. -/
def index (request : HttpRequest) (db : Store) : HttpResponse × Store :=
  let products := db.products
  (render request "index.html" [("products", products)], db)

/-- The new view, src/products/views.py lines 35-36: return the literal
HttpResponse "New Products". The pair returns the response together with
the store as the handler leaves it. -/
def new (request : HttpRequest) (db : Store) : HttpResponse × Store :=
  (httpResponse "New Products", db)

/-- The two handlers that src/products/urls.py can dispatch to. -/
inductive Handler
  | index
  | new
deriving DecidableEq, Repr

/-- Running a handler on a request and the current store. -/
def Handler.run : Handler → HttpRequest → Store → HttpResponse × Store
  | .index => PyShop.index
  | .new => PyShop.new

/-- The dispatch table of src/products/urls.py lines 8-11: the empty path
maps to views.index and the path "new" maps to views.new. -/
def urlpatterns : List (String × Handler) :=
  [("", .index), ("new", .new)]

/-- URL resolution over the table: the first pattern whose path equals the
request path, if any. -/
def resolve (path : String) : Option Handler :=
  (urlpatterns.find? (fun e => e.1 == path)).map (fun e => e.2)

/-- An admin registration entry: the columns of the model's list view. -/
structure ModelAdmin where
  list_display : List String
deriving DecidableEq, Repr

/-- ProductAdmin, src/products/admin.py lines 5-6. -/
def ProductAdmin : ModelAdmin := ⟨["name", "price", "stock"]⟩

/-- OfferAdmin, src/products/admin.py lines 20-21. -/
def OfferAdmin : ModelAdmin := ⟨["code", "discount"]⟩

/-- The admin site registrations, src/products/admin.py lines 9 and 23. -/
def adminSite : List (String × ModelAdmin) :=
  [("Product", ProductAdmin), ("Offer", OfferAdmin)]

/-- A product row within the bounds the schema declares: name at most 255
characters, image_url at most 2083. -/
def ProductRow.validb (r : ProductRow) : Bool :=
  decide (r.name.length ≤ 255) && decide (r.image_url.length ≤ 2083)

/-- An offer row within the bounds the schema declares: code at most 10
characters, description at most 255. -/
def OfferRow.validb (o : OfferRow) : Bool :=
  decide (o.code.length ≤ 10) && decide (o.description.length ≤ 255)

/-- Every stored row of both tables is within its schema's bounds. -/
def Store.validb (db : Store) : Bool :=
  db.products.all ProductRow.validb && db.offers.all OfferRow.validb

/-- Modelled from the spec: the lifecycle operations the spec grants the
application, namely create, edit and delete for each record type through
the generic admin UI's default forms. The admin code itself is framework
code and is not under src/; src/products/admin.py only registers the two
models with it. -/
inductive AdminOp
  | createProduct (p : ProductRow)
  | editProduct (i : Nat) (p : ProductRow)
  | deleteProduct (i : Nat)
  | createOffer (o : OfferRow)
  | editOffer (i : Nat) (o : OfferRow)
  | deleteOffer (i : Nat)
deriving DecidableEq, Repr

/-- Modelled from the spec: the effect of one default admin form submission
on the store. The default forms reject a value that exceeds a CharField's
declared max_length, leaving the store unchanged; a delete removes the
addressed row. No operation touches the other model's table: the schemas
declare no foreign key and the spec declares no cascading rules. -/
def Store.apply (db : Store) : AdminOp → Store
  | .createProduct p =>
      if p.validb then { db with products := db.products ++ [p] } else db
  | .editProduct i p =>
      if p.validb then { db with products := db.products.set i p } else db
  | .deleteProduct i => { db with products := db.products.eraseIdx i }
  | .createOffer o =>
      if o.validb then { db with offers := db.offers ++ [o] } else db
  | .editOffer i o =>
      if o.validb then { db with offers := db.offers.set i o } else db
  | .deleteOffer i => { db with offers := db.offers.eraseIdx i }

theorem all_of_set {α : Type} (f : α → Bool) (l : List α) (i : Nat) (a : α)
    (h : l.all f = true) (ha : f a = true) : (l.set i a).all f = true := by
  rw [List.all_eq_true] at h ⊢
  intro x hx
  rcases List.mem_or_eq_of_mem_set hx with hmem | rfl
  · exact h x hmem
  · exact ha

theorem all_of_eraseIdx {α : Type} (f : α → Bool) (l : List α) (i : Nat)
    (h : l.all f = true) : (l.eraseIdx i).all f = true := by
  rw [List.all_eq_true] at h ⊢
  intro x hx
  exact h x (List.eraseIdx_subset l i hx)

/-- C1: for every request and every store state, the root route resolves to
the index handler, and running it yields status 200, template index.html,
a context whose products entry is exactly the complete unfiltered product
table, and an unchanged store (no error path). -/
theorem index_route_lists_all_products (req : HttpRequest) (db : Store) :
    resolve "" = some Handler.index ∧
    (Handler.index.run req db).1.status = 200 ∧
    (Handler.index.run req db).1.template = some "index.html" ∧
    contextLookup (Handler.index.run req db).1.context "products" =
      some db.products ∧
    (Handler.index.run req db).2 = db :=
  ⟨rfl, rfl, rfl, rfl, rfl⟩

/-- C2: the route "new" resolves to the new handler, whose response body is
always the literal text "New Products" with status 200, and the response is
identical for any two store states. -/
theorem new_route_static_text (req : HttpRequest) (db db' : Store) :
    resolve "new" = some Handler.new ∧
    (new req db).1.body = some "New Products" ∧
    (new req db).1.status = 200 ∧
    (new req db).1 = (new req db').1 :=
  ⟨rfl, rfl, rfl, rfl⟩

/-- C3: the admin list view shows exactly the columns name, price, stock
for Product and code, discount for Offer, in that order. -/
theorem admin_list_display_columns :
    ProductAdmin.list_display = ["name", "price", "stock"] ∧
    OfferAdmin.list_display = ["code", "discount"] :=
  ⟨rfl, rfl⟩

/-- C4: the dispatch table holds exactly the two entries mapping the empty
path to index and the path "new" to new, and resolution follows it. -/
theorem url_dispatch_table_exact :
    urlpatterns = [("", Handler.index), ("new", Handler.new)] ∧
    resolve "" = some Handler.index ∧
    resolve "new" = some Handler.new :=
  ⟨rfl, rfl, rfl⟩

/-- C5: the Product schema declares exactly the fields name (text), price
(floating-point), stock (integer) and image_url (text), none unique and
none a foreign key, and every quadruple of field values forms a product
row. -/
theorem product_schema_fields :
    Product.schema.map FieldSpec.name =
      ["name", "price", "stock", "image_url"] ∧
    Product.schema.map FieldSpec.ftype =
      [.CharField 255, .FloatField, .IntegerField, .CharField 2083] ∧
    Product.schema.all
      (fun f => !f.unique && !f.ftype.isForeignKey) = true ∧
    ∀ (n : String) (pr : DoubleBits) (s : Int) (u : String),
      ∃ r : ProductRow,
        r.name = n ∧ r.price = pr ∧ r.stock = s ∧ r.image_url = u :=
  ⟨rfl, rfl, rfl, fun n pr s u => ⟨⟨n, pr, s, u⟩, rfl, rfl, rfl, rfl⟩⟩

/-- C6: the Offer schema declares exactly the fields code (short text),
description (text) and discount (floating-point), and no field of it
references another model. -/
theorem offer_schema_fields :
    Offer.schema.map FieldSpec.name = ["code", "description", "discount"] ∧
    Offer.schema.map FieldSpec.ftype =
      [.CharField 10, .CharField 255, .FloatField] ∧
    Offer.schema.all (fun f => !f.ftype.isForeignKey) = true :=
  ⟨rfl, rfl, rfl⟩

/-- C7: neither handler mutates the persisted state: for every request and
store, index and new both return the store unchanged. -/
theorem handlers_do_not_mutate (req : HttpRequest) (db : Store) :
    (index req db).2 = db ∧ (new req db).2 = db :=
  ⟨rfl, rfl⟩

/-- C8: the two tables are independent: every product operation leaves the
Offer table unchanged and every offer operation leaves the Product table
unchanged. -/
theorem product_offer_independence (db : Store) (p : ProductRow)
    (o : OfferRow) (i : Nat) :
    (db.apply (.createProduct p)).offers = db.offers ∧
    (db.apply (.editProduct i p)).offers = db.offers ∧
    (db.apply (.deleteProduct i)).offers = db.offers ∧
    (db.apply (.createOffer o)).products = db.products ∧
    (db.apply (.editOffer i o)).products = db.products ∧
    (db.apply (.deleteOffer i)).products = db.products := by
  refine ⟨?_, ?_, rfl, ?_, ?_, rfl⟩ <;>
    simp only [Store.apply] <;> split <;> rfl

/-- C9: every admin operation preserves the schema's declared length
bounds: from a store whose rows all satisfy them, any create, edit or
delete yields a store whose rows all satisfy them. -/
theorem stored_rows_satisfy_declared_bounds (db : Store) (op : AdminOp)
    (h : db.validb = true) : (db.apply op).validb = true := by
  rw [Store.validb, Bool.and_eq_true] at h
  obtain ⟨hp, ho⟩ := h
  cases op with
  | createProduct p =>
      cases hv : p.validb with
      | true =>
          simp [Store.apply, hv, Store.validb, List.all_append, hp, ho]
      | false => simp [Store.apply, hv, Store.validb, hp, ho]
  | editProduct i p =>
      cases hv : p.validb with
      | true =>
          simp only [Store.apply, hv, if_true, Store.validb,
            Bool.and_eq_true]
          exact ⟨all_of_set _ _ i p hp hv, ho⟩
      | false => simp [Store.apply, hv, Store.validb, hp, ho]
  | deleteProduct i =>
      simp only [Store.apply, Store.validb, Bool.and_eq_true]
      exact ⟨all_of_eraseIdx _ _ i hp, ho⟩
  | createOffer o =>
      cases hv : o.validb with
      | true =>
          simp [Store.apply, hv, Store.validb, List.all_append, hp, ho]
      | false => simp [Store.apply, hv, Store.validb, hp, ho]
  | editOffer i o =>
      cases hv : o.validb with
      | true =>
          simp only [Store.apply, hv, if_true, Store.validb,
            Bool.and_eq_true]
          exact ⟨hp, all_of_set _ _ i o ho hv⟩
      | false => simp [Store.apply, hv, Store.validb, hp, ho]
  | deleteOffer i =>
      simp only [Store.apply, Store.validb, Bool.and_eq_true]
      exact ⟨hp, all_of_eraseIdx _ _ i ho⟩

/-- Witness for C9: the bound-preservation theorem applied to the empty
store and a concrete create operation. -/
theorem stored_rows_satisfy_declared_bounds_witness :
    ((Store.mk [] []).apply
      (.createProduct ⟨"chair", 17, 3, "img.example"⟩)).validb = true :=
  stored_rows_satisfy_declared_bounds (Store.mk [] [])
    (.createProduct ⟨"chair", 17, 3, "img.example"⟩) (by decide)

/-- C10: every path other than the empty path and "new" resolves to no
handler. -/
theorem unknown_path_no_handler (p : String) (h1 : p ≠ "")
    (h2 : p ≠ "new") : resolve p = none := by
  have e1 : ("" == p) = false := beq_eq_false_iff_ne.mpr (fun h => h1 h.symm)
  have e2 : ("new" == p) = false :=
    beq_eq_false_iff_ne.mpr (fun h => h2 h.symm)
  simp [resolve, urlpatterns, List.find?, e1, e2]

/-- Witness for C10: the path "products/7" resolves to no handler. -/
theorem unknown_path_no_handler_witness : resolve "products/7" = none :=
  unknown_path_no_handler "products/7" (by decide) (by decide)

end PyShop
